import Mathlib

/-!
Shallow embedding of CRPropa's `PhotoPionProduction` module
(src/src/module/PhotoPionProduction.cpp) and proofs about it.

Doubles are modelled as real numbers.  A real division whose denominator
is zero leaves the ideal-real model (IEEE doubles would produce an
infinity), so the divisions of the stochastic integrator and of the
loss-length estimator are modelled with an `Option`-valued division that
is `none` exactly on a zero denominator.  External collaborators that the
module only calls (the interpolators, the photon-field density scaling,
the Lorentz-factor accessor and the SOPHIA event generator) are fields of
an `Externals` record, so every theorem quantifies over their behaviour.
The shared random source is modelled as an explicit stream of uniform
variates, one pair per loop iteration (first component for the proton
channel, second for the neutron channel).
-/

namespace Crpropa

/-- Modelled from the spec: `unit-conversion constants` are out-of-scope
external collaborators (crpropa/Units.h is not among the sources); the
concrete values play no role in any claim. -/
def GeV : ℝ := 1.60217657e-10

/-- Modelled from the spec: length unit used to convert the raw table
rates (crpropa/Units.h is not among the sources). -/
def Mpc : ℝ := 3.08567758e22

/-- Value of `std::numeric_limits<double>::max()`, the largest finite
IEEE double, `(2^53 - 1) * 2^971`. -/
def numericLimitsDoubleMax : ℝ := (2 ^ 53 - 1) * 2 ^ 971

/-- Real division as the module performs it on doubles; a zero
denominator leaves the ideal-real model (IEEE would give an infinity),
so it is reported as `none`. -/
noncomputable def fdiv (x y : ℝ) : Option ℝ :=
  if y = 0 then none else some (x / y)

/-- Modelled from the spec: particle identity "encodes mass number A,
charge number Z, matter/antimatter sign" (crpropa/ParticleID.h is not
among the sources); realized as the nuclear code
`1000000000 + Z*10000 + A*10`, negative values denoting antimatter. -/
def nucleusId (a z : ℤ) : ℤ :=
  1000000000 + z * 10000 + a * 10

/-- Modelled from the spec: mass number A encoded in a particle id
(crpropa/ParticleID.h is not among the sources). -/
def massNumber (id : ℤ) : ℤ :=
  ((id.natAbs : ℤ) / 10) % 1000

/-- Modelled from the spec: charge number Z encoded in a particle id
(crpropa/ParticleID.h is not among the sources). -/
def chargeNumber (id : ℤ) : ℤ :=
  ((id.natAbs : ℤ) / 10000) % 1000

/-- Modelled from the spec: whether an id denotes a nucleus
(crpropa/ParticleID.h is not among the sources). -/
def isNucleus (id : ℤ) : Bool :=
  1000000000 ≤ id.natAbs

/-- The photon-field selector (crpropa/PhotonBackground.h enumeration, as
used by the module). -/
inductive PhotonField where
  | CMB
  | IRB
  | IRB_Kneiske04
  | IRB_Kneiske10
  | IRB_Stecker05
  | IRB_Franceschini08
  | IRB_withRedshift_Kneiske04
  deriving DecidableEq

/-- A particle: an id code and an energy. -/
structure Particle where
  id : ℤ
  energy : ℝ

/-- Modelled from the spec: the external candidate record, "current
particle identity ..., energy, redshift, remaining step length, and an
append-only ordered sequence of secondary particles". `nextStep` is the
next permitted step that `limitNextStep` caps. -/
structure Candidate where
  current : Particle
  redshift : ℝ
  currentStep : ℝ
  nextStep : ℝ
  secondaries : List Particle

/-- Modelled from the spec: "the candidate's next permitted step is
capped at" the given value. -/
noncomputable def Candidate.limitNextStep (c : Candidate) (x : ℝ) : Candidate :=
  { c with nextStep := min c.nextStep x }

/-- Modelled from the spec: appending a secondary particle to the
candidate's append-only list. -/
def Candidate.addSecondary (c : Candidate) (id : ℤ) (e : ℝ) : Candidate :=
  { c with secondaries := c.secondaries ++ [⟨id, e⟩] }

/-- Setting the primary particle's energy in place. -/
def Candidate.setEnergy (c : Candidate) (e : ℝ) : Candidate :=
  { c with current := { c.current with energy := e } }

/-- Setting the primary particle's id in place. -/
def Candidate.setId (c : Candidate) (id : ℤ) : Candidate :=
  { c with current := { c.current with id := id } }

/-- The module's configuration and rate tables
(PhotoPionProduction.h state, as the .cpp reads and writes it). -/
structure PhotoPionProduction where
  photonField : PhotonField
  havePhotons : Bool
  haveNeutrinos : Bool
  haveAntiNucleons : Bool
  doRedshiftDependent : Bool
  limit : ℝ
  tabLorentz : List ℝ
  tabRedshifts : List ℝ
  tabProtonRate : List ℝ
  tabNeutronRate : List ℝ

/-- External collaborators the module calls but does not define:
the grid interpolators, the photon-field density scaling, the
Lorentz-factor accessor of a particle, and the SOPHIA event generator
(arguments: nature, Ein in GeV, redshift, background id, max redshift;
result: the ordered outgoing (type code, energy in GeV) list). -/
structure Externals where
  interpolate : ℝ → List ℝ → List ℝ → ℝ
  interpolate2d : ℝ → ℝ → List ℝ → List ℝ → List ℝ → ℝ
  photonFieldScaling : PhotonField → ℝ → ℝ
  lorentzFactor : Particle → ℝ
  sophiaevent : ℕ → ℝ → ℝ → ℕ → ℝ → List (ℤ × ℝ)

/-- PhotoPionProduction.cpp lines 127-133: `nucleiModification(A, X)`. -/
noncomputable def nucleiModification (A X : ℤ) : ℝ :=
  if A = 1 then 1
  else if A ≤ 8 then 0.85 * (X : ℝ) ^ ((2 : ℝ) / 3)
  else 0.85 * (X : ℝ)

/-- A successfully parsed non-comment data row of a rate-table file:
`z log10(gamma) protonRateRaw neutronRateRaw` for redshift-dependent
fields, `log10(gamma) protonRateRaw neutronRateRaw` (the `z` component
unread) otherwise.  Comment lines and the final failed read of the C++
extraction loop contribute no row. -/
structure TableRow where
  z : ℝ
  a : ℝ
  b : ℝ
  c : ℝ

/-- The mutable state of the table-reading loop of
PhotoPionProduction.cpp lines 95-119: the four tables under
construction plus `zOld`, `aOld` and `doReadLorentz`. -/
structure LoadState where
  tabLorentz : List ℝ
  tabRedshifts : List ℝ
  tabProtonRate : List ℝ
  tabNeutronRate : List ℝ
  zOld : ℝ
  aOld : ℝ
  doReadLorentz : Bool

/-- One pass of the body of the reading loop (lines 105-115) on a
successfully parsed data row. -/
noncomputable def loadRow (dep : Bool) (st : LoadState) (r : TableRow) : LoadState :=
  let st := if dep ∧ r.z ≠ st.zOld then
      { st with tabRedshifts := st.tabRedshifts ++ [r.z] } else st
  let st := if r.a < st.aOld then { st with doReadLorentz := false } else st
  let st := if st.doReadLorentz then
      { st with tabLorentz := st.tabLorentz ++ [(10 : ℝ) ^ r.a] } else st
  { st with
    tabProtonRate := st.tabProtonRate ++ [r.b / Mpc],
    tabNeutronRate := st.tabNeutronRate ++ [r.c / Mpc],
    zOld := r.z, aOld := r.a }

/-- The whole reading loop over the file's data rows. -/
noncomputable def loadLoop (dep : Bool) (st : LoadState) (rows : List TableRow) : LoadState :=
  rows.foldl (loadRow dep) st

/-- The loop state at line 96: cleared tables, `zOld = -1`, `aOld = -1`,
`doReadLorentz = true`. -/
def initialLoadState : LoadState :=
  ⟨[], [], [], [], -1, -1, true⟩

/-- PhotoPionProduction.cpp lines 83-125, `init(std::string)`.  The file
is `none` when it cannot be opened (`!infile.good()`), in which case the
function throws before touching the tables: the returned state is the
unchanged module together with the error message.  Otherwise the old
tables are cleared and rebuilt from the file's data rows. -/
noncomputable def init (ppp : PhotoPionProduction) (file : Option (List TableRow)) :
    PhotoPionProduction × Option String :=
  match file with
  | none => (ppp, some "PhotoPionProduction: could not open file")
  | some rows =>
    let st := loadLoop ppp.doRedshiftDependent initialLoadState rows
    ({ ppp with
        tabLorentz := st.tabLorentz,
        tabRedshifts := st.tabRedshifts,
        tabProtonRate := st.tabProtonRate,
        tabNeutronRate := st.tabNeutronRate }, none)

/-- PhotoPionProduction.cpp lines 233-288: the effect of one outgoing
particle of the generator's list on the candidate.  `A`, `Z`, `sign`,
`E` and `EpA` are the values read before the loop; `none` is the
`std::runtime_error` thrown on an unexpected particle type code. -/
noncomputable def applyOutParticle (ppp : PhotoPionProduction) (A Z sign : ℤ) (E EpA : ℝ)
    (channel : ℕ) (c : Candidate) (p : ℤ × ℝ) : Option Candidate :=
  let Eout := p.2 * GeV
  let pType := p.1
  if pType = 13 ∨ pType = 14 then
    if A = 1 then
      some ((c.setEnergy Eout).setId (sign * nucleusId 1 (14 - pType)))
    else
      some ((((c.setEnergy (E - EpA)).setId
        (sign * nucleusId (A - 1) (Z - channel))).addSecondary
          (sign * nucleusId 1 (14 - pType)) Eout))
  else if pType = -13 ∨ pType = -14 then
    some (if ppp.haveAntiNucleons then
      c.addSecondary (-sign * nucleusId 1 (14 + pType)) Eout else c)
  else if pType = 1 then
    some (if ppp.havePhotons then c.addSecondary 22 Eout else c)
  else if pType = 2 then
    some (if ppp.havePhotons then c.addSecondary (sign * -11) Eout else c)
  else if pType = 3 then
    some (if ppp.havePhotons then c.addSecondary (sign * 11) Eout else c)
  else if pType = 15 then
    some (if ppp.haveNeutrinos then c.addSecondary (sign * 12) Eout else c)
  else if pType = 16 then
    some (if ppp.haveNeutrinos then c.addSecondary (sign * -12) Eout else c)
  else if pType = 17 then
    some (if ppp.haveNeutrinos then c.addSecondary (sign * 14) Eout else c)
  else if pType = 18 then
    some (if ppp.haveNeutrinos then c.addSecondary (sign * -14) Eout else c)
  else none

/-- The loop over the generator's outgoing particle list
(lines 233-288). -/
noncomputable def applyOutgoing (ppp : PhotoPionProduction) (A Z sign : ℤ) (E EpA : ℝ)
    (channel : ℕ) (c : Candidate) (outs : List (ℤ × ℝ)) : Option Candidate :=
  outs.foldlM (applyOutParticle ppp A Z sign E EpA channel) c

/-- PhotoPionProduction.cpp lines 201-289, `performInteraction`:
read A, Z, E, EpA, z and the antimatter sign from the candidate, call
the SOPHIA generator for the winning channel, and fold its outgoing
list into the candidate. -/
noncomputable def performInteraction (ext : Externals) (ppp : PhotoPionProduction)
    (c : Candidate) (channel : ℕ) : Option Candidate :=
  let id := c.current.id
  let A := massNumber id
  let Z := chargeNumber id
  let E := c.current.energy
  let EpA := E / (A : ℝ)
  let z := c.redshift
  let sign : ℤ := if 0 < id then 1 else -1
  let nature : ℕ := 1 - channel
  let Ein := EpA / GeV
  let background : ℕ := if ppp.photonField = PhotonField.CMB then 1 else 2
  applyOutgoing ppp A Z sign E EpA channel c
    (ext.sophiaevent nature Ein z background 100)

/-- The per-channel rate of PhotoPionProduction.cpp lines 164-180: the
interpolated table rate — multiplied by the hoisted cosmological scaling
`(1+z)^2 * photonFieldScaling(photonField, z)` of line 158 when the
table is redshift independent, looked up in 2-D otherwise — times the
nucleus modification factor for the channel's nucleon count `X`. -/
noncomputable def channelRate (ext : Externals) (ppp : PhotoPionProduction)
    (z gamma : ℝ) (tab : List ℝ) (A X : ℤ) : ℝ :=
  (if ¬ppp.doRedshiftDependent then
      ((1 + z) ^ 2 * ext.photonFieldScaling ppp.photonField z) *
        ext.interpolate gamma ppp.tabLorentz tab
    else
      ext.interpolate2d z gamma ppp.tabRedshifts ppp.tabLorentz tab) *
    nucleiModification A X

/-- Lines 151-187: sampling the competing channels.  Result:
`(randDistance, channel, totalRate)` — the minimum sampled distance, the
winning channel (`some 1` proton, `some 0` neutron, `none` when the C++
variable stays uninitialized because no channel is available) and the
sum of the available channel rates.  `u.1`, `u.2` are this iteration's
uniform variates for the proton resp. neutron draw. -/
noncomputable def sampleChannels (ext : Externals) (ppp : PhotoPionProduction)
    (z gamma : ℝ) (A Z : ℤ) (u : ℝ × ℝ) : Option (ℝ × Option ℕ × ℝ) :=
  let N := A - Z
  let first : Option (ℝ × Option ℕ × ℝ) :=
    if 0 < Z then
      let rate := channelRate ext ppp z gamma ppp.tabProtonRate A Z
      (fdiv (-Real.log u.1) rate).map (fun d => (d, some 1, rate))
    else some (numericLimitsDoubleMax, none, 0)
  first.bind (fun s =>
    if 0 < N then
      let rate := channelRate ext ppp z gamma ppp.tabNeutronRate A N
      (fdiv (-Real.log u.2) rate).map (fun d =>
        if d < s.1 then (d, some 0, s.2.2 + rate) else (s.1, s.2.1, s.2.2 + rate))
    else some s)

/-- The result of one pass of the do-while body of `process`: either the
function returned, or it interacts and continues with the remaining
step. -/
inductive LoopResult where
  | done (c : Candidate)
  | next (c : Candidate) (step : ℝ)

/-- One pass of the do-while body of PhotoPionProduction.cpp
lines 138-198: reject non-nuclei and out-of-range Lorentz factors,
sample the channels, defer (capping the next step at
`limit / totalRate`) when the remaining step is shorter than the winning
distance, otherwise interact.  An empty Lorentz grid (undefined
`front()` / `back()`) is out of the model. -/
noncomputable def processIteration (ext : Externals) (ppp : PhotoPionProduction)
    (c : Candidate) (step : ℝ) (u : ℝ × ℝ) : Option LoopResult :=
  let id := c.current.id
  if ¬isNucleus id then some (.done c) else
  match ppp.tabLorentz.head?, ppp.tabLorentz.getLast? with
  | some front, some back =>
    let z := c.redshift
    let gamma := (1 + z) * ext.lorentzFactor c.current
    if gamma < front ∨ gamma > back then some (.done c) else
    let A := massNumber id
    let Z := chargeNumber id
    (sampleChannels ext ppp z gamma A Z u).bind (fun s =>
      if step < s.1 then
        (fdiv ppp.limit s.2.2).map (fun cap => .done (c.limitNextStep cap))
      else
        s.2.1.bind (fun ch =>
          (performInteraction ext ppp c ch).map (fun c2 => .next c2 (step - s.1))))
  | _, _ => none

/-- The do-while loop of `process`, with explicit fuel and the stream of
uniform variates (one pair per iteration); exhausting either is out of
the model. -/
noncomputable def processLoop (ext : Externals) (ppp : PhotoPionProduction) :
    ℕ → Candidate → ℝ → List (ℝ × ℝ) → Option Candidate
  | 0, _, _, _ => none
  | n + 1, c, step, us =>
    match us with
    | [] => none
    | u :: rest =>
      (processIteration ext ppp c step u).bind (fun r =>
        match r with
        | .done c2 => some c2
        | .next c2 step2 =>
          if step2 > 0 then processLoop ext ppp n c2 step2 rest else some c2)

/-- PhotoPionProduction.cpp lines 135-199, `process`: run the do-while
loop starting from the candidate's current step. -/
noncomputable def process (ext : Externals) (ppp : PhotoPionProduction)
    (c : Candidate) (us : List (ℝ × ℝ)) : Option Candidate :=
  processLoop ext ppp us.length c c.currentStep us

/-- PhotoPionProduction.cpp lines 291-317, `lossLength`: the continuous
energy-loss-length estimator.  Out-of-range boosted Lorentz factors
yield `std::numeric_limits<double>::max()`; note that the neutron branch
(lines 304-306) interpolates `tabProtonRate`. -/
noncomputable def lossLength (ext : Externals) (ppp : PhotoPionProduction)
    (id : ℤ) (gamma z : ℝ) : Option ℝ :=
  let A := massNumber id
  let Z := chargeNumber id
  let N := A - Z
  let g := gamma * (1 + z)
  match ppp.tabLorentz.head?, ppp.tabLorentz.getLast? with
  | some front, some back =>
    if g < front ∨ g > back then some numericLimitsDoubleMax else
    let lossRate0 : ℝ :=
      if 0 < Z then
        ext.interpolate g ppp.tabLorentz ppp.tabProtonRate * nucleiModification A Z
      else 0
    let lossRate1 : ℝ := lossRate0 +
      (if 0 < N then
        ext.interpolate g ppp.tabLorentz ppp.tabProtonRate * nucleiModification A N
      else 0)
    let relativeEnergyLoss : ℝ := if A = 1 then 1 - 938 / 1232 else 1 / (A : ℝ)
    let lossRate2 := lossRate1 * relativeEnergyLoss
    let lossRate3 := lossRate2 * ((1 + z) ^ 3 * ext.photonFieldScaling ppp.photonField z)
    fdiv 1 lossRate3
  | _, _ => none

/-- C4: the nucleus modification factor equals 1 when A = 1, equals
`0.85 * X^(2/3)` when 1 < A ≤ 8, and equals `0.85 * X` when A > 8; in
particular `nucleiModification 1 X = 1`,
`nucleiModification 4 2 = 0.85 * 2^(2/3)` and
`nucleiModification 16 8 = 0.85 * 8`. -/
theorem nucleiModification_cases (A X : ℤ) :
    (A = 1 → nucleiModification A X = 1) ∧
    (1 < A → A ≤ 8 → nucleiModification A X = 0.85 * (X : ℝ) ^ ((2 : ℝ) / 3)) ∧
    (8 < A → nucleiModification A X = 0.85 * (X : ℝ)) ∧
    nucleiModification 1 X = 1 ∧
    nucleiModification 4 2 = 0.85 * (2 : ℝ) ^ ((2 : ℝ) / 3) ∧
    nucleiModification 16 8 = 0.85 * 8 := by
  refine ⟨fun h => ?_, fun h1 h2 => ?_, fun h => ?_, ?_, ?_, ?_⟩
  · simp [nucleiModification, h]
  · rw [nucleiModification, if_neg (by omega), if_pos h2]
  · rw [nucleiModification, if_neg (by omega), if_neg (by omega)]
  · simp [nucleiModification]
  · rw [nucleiModification, if_neg (by omega), if_pos (by omega)]
    norm_num
  · rw [nucleiModification, if_neg (by omega), if_neg (by omega)]
    norm_num

/-- Decoding a nuclear code: the mass number comes back whenever A and Z
are in the three-digit range of the code. -/
theorem massNumber_nucleusId (a z : ℤ) (ha : 0 ≤ a) (ha' : a < 1000)
    (hz : 0 ≤ z) (hz' : z < 1000) : massNumber (nucleusId a z) = a := by
  have hv : (0 : ℤ) ≤ 1000000000 + z * 10000 + a * 10 := by omega
  rw [massNumber, nucleusId, Int.natAbs_of_nonneg hv]
  omega

/-- Decoding a nuclear code: the charge number comes back whenever A and
Z are in the three-digit range of the code. -/
theorem chargeNumber_nucleusId (a z : ℤ) (ha : 0 ≤ a) (ha' : a < 1000)
    (hz : 0 ≤ z) (hz' : z < 1000) : chargeNumber (nucleusId a z) = z := by
  have hv : (0 : ℤ) ≤ 1000000000 + z * 10000 + a * 10 := by omega
  rw [chargeNumber, nucleusId, Int.natAbs_of_nonneg hv]
  omega

/-- The decoders ignore the antimatter sign. -/
theorem massNumber_neg (id : ℤ) : massNumber (-id) = massNumber id := by
  simp [massNumber]

/-- The decoders ignore the antimatter sign. -/
theorem chargeNumber_neg (id : ℤ) : chargeNumber (-id) = chargeNumber id := by
  simp [chargeNumber]

/-- Mass numbers decoded from any id are three-digit values. -/
theorem massNumber_nonneg_lt (id : ℤ) : 0 ≤ massNumber id ∧ massNumber id < 1000 := by
  rw [massNumber]
  omega

/-- Charge numbers decoded from any id are three-digit values. -/
theorem chargeNumber_nonneg_lt (id : ℤ) : 0 ≤ chargeNumber id ∧ chargeNumber id < 1000 := by
  rw [chargeNumber]
  omega

/-- C9: when the rate-table file cannot be opened, `init` throws before
clearing any table, so the module's previously loaded tables are left
unchanged (the returned state is the incoming one, with the error);
and on a successfully opened file the old tables are cleared and
replaced — the result does not depend on them at all. -/
theorem init_open_failure_atomic (ppp : PhotoPionProduction) :
    init ppp none = (ppp, some "PhotoPionProduction: could not open file") ∧
    ∀ o1 o2 o3 o4 rows,
      init { ppp with
              tabLorentz := o1
              tabRedshifts := o2
              tabProtonRate := o3
              tabNeutronRate := o4 } (some rows) =
      init ppp (some rows) :=
  ⟨rfl, fun _ _ _ _ _ => rfl⟩

/-- Every processed data row appends exactly one entry to each rate
array. -/
theorem loadRow_rate_lengths (dep : Bool) (st : LoadState) (r : TableRow) :
    (loadRow dep st r).tabProtonRate.length = st.tabProtonRate.length + 1 ∧
    (loadRow dep st r).tabNeutronRate.length = st.tabNeutronRate.length + 1 := by
  rw [loadRow]
  split <;> split <;> split <;> simp

/-- Rate-array lengths after the reading loop: one entry per row. -/
theorem loadLoop_rate_lengths (dep : Bool) (rows : List TableRow) :
    ∀ st : LoadState,
      (loadLoop dep st rows).tabProtonRate.length = st.tabProtonRate.length + rows.length ∧
      (loadLoop dep st rows).tabNeutronRate.length = st.tabNeutronRate.length + rows.length := by
  induction rows with
  | nil => intro st; simp [loadLoop]
  | cons r rows ih =>
    intro st
    have h1 := loadRow_rate_lengths dep st r
    have h2 := ih (loadRow dep st r)
    rw [loadLoop] at h2 ⊢
    simp only [List.foldl_cons, List.length_cons]
    omega

/-- Once `doReadLorentz` is false it stays false and a row appends
nothing to the Lorentz grid. -/
theorem loadRow_dead (dep : Bool) (st : LoadState) (r : TableRow)
    (h : st.doReadLorentz = false) :
    (loadRow dep st r).tabLorentz = st.tabLorentz ∧
    (loadRow dep st r).doReadLorentz = false := by
  rw [loadRow]
  split <;> split <;> simp_all

/-- Once `doReadLorentz` is false, the rest of the loop never touches
the Lorentz grid. -/
theorem loadLoop_dead (dep : Bool) (rows : List TableRow) :
    ∀ st : LoadState, st.doReadLorentz = false →
      (loadLoop dep st rows).tabLorentz = st.tabLorentz := by
  induction rows with
  | nil => intro st _; rfl
  | cons r rows ih =>
    intro st h
    obtain ⟨h1, h2⟩ := loadRow_dead dep st r h
    simp only [loadLoop, List.foldl_cons] at ih ⊢
    rw [ih _ h2, h1]

/-- A row whose `log10(gamma)` value descends below the previous one
appends nothing to the Lorentz grid and turns `doReadLorentz` off. -/
theorem loadRow_descent (dep : Bool) (st : LoadState) (r : TableRow)
    (h : r.a < st.aOld) :
    (loadRow dep st r).tabLorentz = st.tabLorentz ∧
    (loadRow dep st r).doReadLorentz = false := by
  rw [loadRow]
  split <;> simp_all

/-- C8: during table loading, the proton- and neutron-rate arrays
receive exactly one entry per non-comment data row, while once a row's
`log10(gamma)` drops below the previous row's value no further entry is
ever appended to the Lorentz grid — only the first ascending run defines
its final content. -/
theorem init_rate_lengths_and_lorentz_run (ppp : PhotoPionProduction)
    (rows : List TableRow) :
    (init ppp (some rows)).1.tabProtonRate.length = rows.length ∧
    (init ppp (some rows)).1.tabNeutronRate.length = rows.length ∧
    (∀ pre r post, rows = pre ++ r :: post →
      r.a < (loadLoop ppp.doRedshiftDependent initialLoadState pre).aOld →
      (init ppp (some rows)).1.tabLorentz =
        (loadLoop ppp.doRedshiftDependent initialLoadState pre).tabLorentz) := by
  have hlen := loadLoop_rate_lengths ppp.doRedshiftDependent rows initialLoadState
  refine ⟨?_, ?_, ?_⟩
  · show (loadLoop ppp.doRedshiftDependent initialLoadState rows).tabProtonRate.length = _
    rw [hlen.1]; simp [initialLoadState]
  · show (loadLoop ppp.doRedshiftDependent initialLoadState rows).tabNeutronRate.length = _
    rw [hlen.2]; simp [initialLoadState]
  · intro pre r post hrows hdesc
    show (loadLoop ppp.doRedshiftDependent initialLoadState rows).tabLorentz = _
    subst hrows
    obtain ⟨h1, h2⟩ :=
      loadRow_descent ppp.doRedshiftDependent
        (loadLoop ppp.doRedshiftDependent initialLoadState pre) r hdesc
    have hdead := loadLoop_dead ppp.doRedshiftDependent post
      (loadRow ppp.doRedshiftDependent
        (loadLoop ppp.doRedshiftDependent initialLoadState pre) r) h2
    simp only [loadLoop, List.foldl_append, List.foldl_cons] at hdead h1 ⊢
    rw [hdead, h1]

/-- C1: a nucleus with A > 1 that interacts and for which the generator
returns an outgoing nucleon code (13 proton, 14 neutron) becomes a
daughter nucleus of mass A−1, with charge Z−1 on the proton channel
(`ch = 1`) and unchanged charge Z on the neutron channel (`ch = 0`),
carrying energy `E − E/A`; the outgoing nucleon is appended as one new
secondary of energy `Eout` (the generator's energy converted from
GeV). -/
theorem performInteraction_heavy_nucleus (ext : Externals) (ppp : PhotoPionProduction)
    (c : Candidate) (ch : ℕ) (pt : ℤ) (e : ℝ)
    (hA : 1 < massNumber c.current.id)
    (hch : ch ≤ 1)
    (hZ : (ch : ℤ) ≤ chargeNumber c.current.id)
    (hpt : pt = 13 ∨ pt = 14)
    (hgen : ext.sophiaevent (1 - ch)
        (c.current.energy / (massNumber c.current.id : ℝ) / GeV) c.redshift
        (if ppp.photonField = PhotonField.CMB then 1 else 2) 100 = [(pt, e)]) :
    performInteraction ext ppp c ch =
      some
        (Candidate.addSecondary
          ((c.setEnergy
            (c.current.energy - c.current.energy / (massNumber c.current.id : ℝ))).setId
            ((if 0 < c.current.id then (1 : ℤ) else -1) *
              nucleusId (massNumber c.current.id - 1) (chargeNumber c.current.id - ch)))
          ((if 0 < c.current.id then (1 : ℤ) else -1) * nucleusId 1 (14 - pt))
          (e * GeV)) ∧
    massNumber ((if 0 < c.current.id then (1 : ℤ) else -1) *
        nucleusId (massNumber c.current.id - 1) (chargeNumber c.current.id - ch)) =
      massNumber c.current.id - 1 ∧
    chargeNumber ((if 0 < c.current.id then (1 : ℤ) else -1) *
        nucleusId (massNumber c.current.id - 1) (chargeNumber c.current.id - ch)) =
      chargeNumber c.current.id - ch ∧
    massNumber ((if 0 < c.current.id then (1 : ℤ) else -1) * nucleusId 1 (14 - pt)) = 1 := by
  have hAlt := massNumber_nonneg_lt c.current.id
  have hZlt := chargeNumber_nonneg_lt c.current.id
  have hm := massNumber_nucleusId (massNumber c.current.id - 1)
    (chargeNumber c.current.id - ch) (by omega) (by omega) (by omega) (by omega)
  have hc := chargeNumber_nucleusId (massNumber c.current.id - 1)
    (chargeNumber c.current.id - ch) (by omega) (by omega) (by omega) (by omega)
  have hm1 : massNumber (nucleusId 1 (14 - pt)) = 1 := by
    rcases hpt with h | h <;> subst h <;>
      exact massNumber_nucleusId 1 _ (by omega) (by omega) (by omega) (by omega)
  refine ⟨?_, ?_, ?_, ?_⟩
  · rw [performInteraction]
    rw [hgen]
    rw [applyOutgoing]
    simp only [List.foldlM]
    rw [applyOutParticle, if_pos hpt, if_neg (by omega : ¬massNumber c.current.id = 1)]
    rfl
  · split <;> simp [hm, massNumber_neg]
  · split <;> simp [hc, chargeNumber_neg]
  · split <;> simp [hm1, massNumber_neg]

/-- Concrete external collaborators used to instantiate theorems: all
rates interpolate to 1, the Lorentz factor is 50 (inside the sample
grid), and the generator always returns one outgoing proton of 2 GeV. -/
noncomputable def extSample : Externals :=
  ⟨fun _ _ _ => 1, fun _ _ _ _ _ => 1, fun _ _ => 1, fun _ => 50,
    fun _ _ _ _ _ => [(13, 2)]⟩

/-- A concrete module configuration: CMB, redshift-independent tables
with Lorentz grid `[10, 100]`. -/
noncomputable def pppSample : PhotoPionProduction :=
  ⟨PhotonField.CMB, true, true, true, false, 0.1, [10, 100], [], [1, 1], [1, 1]⟩

/-- A concrete carbon-12 candidate (A = 12, Z = 6) at redshift 0. -/
noncomputable def candC12 : Candidate :=
  ⟨⟨nucleusId 12 6, 1⟩, 0, 1, 1, []⟩

/-- A concrete bare-proton candidate (A = 1, Z = 1) at redshift 0. -/
noncomputable def candProton : Candidate :=
  ⟨⟨nucleusId 1 1, 1⟩, 0, 1, 1, []⟩

/-- Witness for C1 at a concrete input: a carbon-12 nucleus on the
proton channel with the sample generator. -/
theorem performInteraction_heavy_nucleus_witness :
    massNumber candC12.current.id = 12 ∧
    (performInteraction extSample pppSample candC12 1).isSome = true := by
  constructor
  · decide
  · rw [(performInteraction_heavy_nucleus extSample pppSample candC12 1 13 2
      (by decide) (by decide) (by decide) (Or.inl rfl) rfl).1]
    rfl

/-- C6: a bare nucleon (A = 1) that interacts and for which the
generator returns an outgoing nucleon code has its identity and energy
replaced in place with the outgoing nucleon at energy `Eout`, preserving
the matter/antimatter sign, and no secondary is appended for that
nucleon; the resulting particle is a bare nucleon of charge `14 − pt`
(so a returned proton code leaves a bare proton at the new energy). -/
theorem performInteraction_bare_nucleon (ext : Externals) (ppp : PhotoPionProduction)
    (c : Candidate) (ch : ℕ) (pt : ℤ) (e : ℝ)
    (hA : massNumber c.current.id = 1)
    (hpt : pt = 13 ∨ pt = 14)
    (hgen : ext.sophiaevent (1 - ch)
        (c.current.energy / (massNumber c.current.id : ℝ) / GeV) c.redshift
        (if ppp.photonField = PhotonField.CMB then 1 else 2) 100 = [(pt, e)]) :
    performInteraction ext ppp c ch =
      some ((c.setEnergy (e * GeV)).setId
        ((if 0 < c.current.id then (1 : ℤ) else -1) * nucleusId 1 (14 - pt))) ∧
    ((c.setEnergy (e * GeV)).setId
        ((if 0 < c.current.id then (1 : ℤ) else -1) * nucleusId 1 (14 - pt))).secondaries =
      c.secondaries ∧
    massNumber ((if 0 < c.current.id then (1 : ℤ) else -1) * nucleusId 1 (14 - pt)) = 1 ∧
    chargeNumber ((if 0 < c.current.id then (1 : ℤ) else -1) * nucleusId 1 (14 - pt)) =
      14 - pt ∧
    (0 < (if 0 < c.current.id then (1 : ℤ) else -1) * nucleusId 1 (14 - pt) ↔
      0 < c.current.id) := by
  have hm1 : massNumber (nucleusId 1 (14 - pt)) = 1 := by
    rcases hpt with h | h <;> subst h <;>
      exact massNumber_nucleusId 1 _ (by omega) (by omega) (by omega) (by omega)
  have hc1 : chargeNumber (nucleusId 1 (14 - pt)) = 14 - pt := by
    rcases hpt with h | h <;> subst h <;>
      exact chargeNumber_nucleusId 1 _ (by omega) (by omega) (by omega) (by omega)
  have hpos : 0 < nucleusId 1 (14 - pt) := by
    rcases hpt with h | h <;> subst h <;> norm_num [nucleusId]
  refine ⟨?_, rfl, ?_, ?_, ?_⟩
  · rw [performInteraction]
    rw [hgen]
    rw [applyOutgoing]
    simp only [List.foldlM]
    rw [applyOutParticle, if_pos hpt, if_pos hA]
    rfl
  · split <;> simp [hm1, massNumber_neg]
  · split <;> simp [hc1, chargeNumber_neg]
  · split <;> rename_i h <;> simp only [one_mul, neg_one_mul]
    · simp [hpos, h]
    · simpa [h] using by omega

/-- Witness for C6 at a concrete input: a bare proton whose generator
returns a single proton code of 2 GeV stays a bare proton at the new
energy. -/
theorem performInteraction_bare_nucleon_witness :
    massNumber candProton.current.id = 1 ∧
    performInteraction extSample pppSample candProton 1 =
      some ((candProton.setEnergy (2 * GeV)).setId (1 * nucleusId 1 1)) := by
  have h := performInteraction_bare_nucleon extSample pppSample candProton 1 13 2
    (by decide) (Or.inl rfl) rfl
  refine ⟨by decide, ?_⟩
  rw [h.1]
  norm_num [candProton, nucleusId]

/-- The `totalRate` component a successful channel sampling returns is
the sum of the available channel rates (proton when Z > 0, neutron when
N = A − Z > 0). -/
theorem sampleChannels_totalRate (ext : Externals) (ppp : PhotoPionProduction)
    (z gamma : ℝ) (A Z : ℤ) (u : ℝ × ℝ) (D : ℝ) (ch : Option ℕ) (R : ℝ)
    (h : sampleChannels ext ppp z gamma A Z u = some (D, ch, R)) :
    R = (if 0 < Z then channelRate ext ppp z gamma ppp.tabProtonRate A Z else 0) +
        (if 0 < A - Z then channelRate ext ppp z gamma ppp.tabNeutronRate A (A - Z) else 0) := by
  rw [sampleChannels] at h
  by_cases hZ : 0 < Z <;> by_cases hN : 0 < A - Z
  · rcases eq_or_ne (channelRate ext ppp z gamma ppp.tabProtonRate A Z) 0 with hP | hP
    · simp [fdiv, hZ, hP] at h
    · rcases eq_or_ne (channelRate ext ppp z gamma ppp.tabNeutronRate A (A - Z)) 0 with
        hQ | hQ
      · simp [fdiv, hZ, hN, hP, hQ] at h
      · simp only [fdiv, hZ, hN, if_pos, if_neg hP, if_neg hQ, if_true,
          Option.map_some', Option.some_bind] at h
        split at h <;>
          · simp only [Option.some.injEq, Prod.mk.injEq] at h
            obtain ⟨-, -, h3⟩ := h
            simp [hZ, hN, ← h3]
  · rcases eq_or_ne (channelRate ext ppp z gamma ppp.tabProtonRate A Z) 0 with hP | hP
    · simp [fdiv, hZ, hP] at h
    · simp only [fdiv, hZ, hN, if_pos, if_neg hP, if_true, if_false,
        Option.map_some', Option.some_bind, Option.some.injEq, Prod.mk.injEq] at h
      obtain ⟨-, -, h3⟩ := h
      simp [hZ, hN, ← h3]
  · rcases eq_or_ne (channelRate ext ppp z gamma ppp.tabNeutronRate A (A - Z)) 0 with
      hQ | hQ
    · simp [fdiv, hZ, hN, hQ] at h
    · simp only [fdiv, hZ, hN, if_neg hQ, if_true, if_false,
        Option.map_some', Option.some_bind] at h
      split at h <;>
        · simp only [Option.some.injEq, Prod.mk.injEq] at h
          obtain ⟨-, -, h3⟩ := h
          simp [hZ, hN, ← h3]
  · simp only [hZ, hN, if_false, Option.some_bind, Option.some.injEq,
      Prod.mk.injEq] at h
    obtain ⟨-, -, h3⟩ := h
    simp [hZ, hN, ← h3]

/-- Shared deferral lemma: a nucleus in tabulated range whose remaining
step is shorter than the winning sampled distance makes `processLoop`
return at once, capping the next step at `limit / totalRate`. -/
theorem processLoop_defer (ext : Externals) (ppp : PhotoPionProduction) (n : ℕ)
    (c : Candidate) (step : ℝ) (u : ℝ × ℝ) (us : List (ℝ × ℝ))
    (front back D : ℝ) (ch : Option ℕ) (R : ℝ)
    (hf : ppp.tabLorentz.head? = some front)
    (hb : ppp.tabLorentz.getLast? = some back)
    (hn : isNucleus c.current.id = true)
    (hγ : ¬((1 + c.redshift) * ext.lorentzFactor c.current < front ∨
        (1 + c.redshift) * ext.lorentzFactor c.current > back))
    (hs : sampleChannels ext ppp c.redshift
        ((1 + c.redshift) * ext.lorentzFactor c.current)
        (massNumber c.current.id) (chargeNumber c.current.id) u = some (D, ch, R))
    (hR : R ≠ 0)
    (hstep : step < D) :
    processLoop ext ppp (n + 1) c step (u :: us) =
      some (c.limitNextStep (ppp.limit / R)) := by
  rw [processLoop]
  rw [processIteration, hf, hb]
  simp only [hn, not_true_eq_false, if_false, if_neg hγ, hs, Option.some_bind]
  simp only [if_pos hstep, fdiv, if_neg hR, Option.map_some', Option.some_bind]

/-- C2: when the remaining step length is strictly less than the winning
sampled channel distance, no interaction is performed — the candidate's
particle and secondaries are untouched — its next step is capped at
`limit / totalRate` with `totalRate` the sum of the available channel
rates, and `process` returns without iterating further (whatever random
variates would follow). -/
theorem process_defer_limits_next_step (ext : Externals) (ppp : PhotoPionProduction)
    (c : Candidate) (u : ℝ × ℝ) (us : List (ℝ × ℝ))
    (front back D : ℝ) (ch : Option ℕ) (R : ℝ)
    (hf : ppp.tabLorentz.head? = some front)
    (hb : ppp.tabLorentz.getLast? = some back)
    (hn : isNucleus c.current.id = true)
    (hγ : ¬((1 + c.redshift) * ext.lorentzFactor c.current < front ∨
        (1 + c.redshift) * ext.lorentzFactor c.current > back))
    (hs : sampleChannels ext ppp c.redshift
        ((1 + c.redshift) * ext.lorentzFactor c.current)
        (massNumber c.current.id) (chargeNumber c.current.id) u = some (D, ch, R))
    (hR : R ≠ 0)
    (hstep : c.currentStep < D) :
    process ext ppp c (u :: us) = some (c.limitNextStep (ppp.limit / R)) ∧
    (c.limitNextStep (ppp.limit / R)).current = c.current ∧
    (c.limitNextStep (ppp.limit / R)).secondaries = c.secondaries ∧
    (c.limitNextStep (ppp.limit / R)).nextStep = min c.nextStep (ppp.limit / R) ∧
    R = (if 0 < chargeNumber c.current.id then
          channelRate ext ppp c.redshift ((1 + c.redshift) * ext.lorentzFactor c.current)
            ppp.tabProtonRate (massNumber c.current.id) (chargeNumber c.current.id)
        else 0) +
        (if 0 < massNumber c.current.id - chargeNumber c.current.id then
          channelRate ext ppp c.redshift ((1 + c.redshift) * ext.lorentzFactor c.current)
            ppp.tabNeutronRate (massNumber c.current.id)
            (massNumber c.current.id - chargeNumber c.current.id)
        else 0) :=
  ⟨processLoop_defer ext ppp us.length c c.currentStep u us front back D ch R
      hf hb hn hγ hs hR hstep,
    rfl, rfl, rfl,
    sampleChannels_totalRate ext ppp c.redshift
      ((1 + c.redshift) * ext.lorentzFactor c.current)
      (massNumber c.current.id) (chargeNumber c.current.id) u D ch R hs⟩

/-- A bare proton at redshift 0 whose current step is already spent
(step length 0), used to instantiate the deferral theorem. -/
noncomputable def candProton0 : Candidate :=
  ⟨⟨nucleusId 1 1, 1⟩, 0, 0, 1, []⟩

/-- Witness for C2 at a concrete input: the sample proton with step
length 0 defers and is capped at `limit / totalRate`. -/
theorem process_defer_limits_next_step_witness :
    candProton0.currentStep < -Real.log (1 / 2) ∧
    process extSample pppSample candProton0 [(1 / 2, 1 / 2)] =
      some (candProton0.limitNextStep (pppSample.limit / 1)) := by
  have hA : massNumber candProton0.current.id = 1 := by decide
  have hZ : chargeNumber candProton0.current.id = 1 := by decide
  have hs : sampleChannels extSample pppSample candProton0.redshift
      ((1 + candProton0.redshift) * extSample.lorentzFactor candProton0.current)
      (massNumber candProton0.current.id) (chargeNumber candProton0.current.id)
      (1 / 2, 1 / 2) = some (-Real.log (1 / 2), some 1, 1) := by
    rw [hA, hZ]
    simp only [sampleChannels, channelRate, nucleiModification, fdiv,
      extSample, pppSample, candProton0]
    norm_num
  have hstep : candProton0.currentStep < -Real.log (1 / 2) := by
    have := Real.log_neg (by norm_num : (0 : ℝ) < 1 / 2) (by norm_num : (1 : ℝ) / 2 < 1)
    show (0 : ℝ) < -Real.log (1 / 2)
    linarith
  have hγ : ¬((1 + candProton0.redshift) * extSample.lorentzFactor candProton0.current <
      10 ∨ (1 + candProton0.redshift) * extSample.lorentzFactor candProton0.current >
      100) := by
    simp only [extSample, candProton0]
    norm_num
  refine ⟨hstep, ?_⟩
  exact (process_defer_limits_next_step extSample pppSample candProton0
    (1 / 2, 1 / 2) [] 10 100 (-Real.log (1 / 2)) (some 1) 1
    rfl rfl (by decide) hγ hs (by norm_num) hstep).1

/-- C3: a candidate whose boosted Lorentz factor `gamma * (1 + z)` lies
strictly below the Lorentz grid's front or strictly above its back makes
`process` return the candidate unchanged (no interaction, no step limit,
no error), and `lossLength` return the largest representable double
(infinite loss length) for every id whose boosted Lorentz factor is
outside the same closed interval. -/
theorem out_of_range_no_interaction (ext : Externals) (ppp : PhotoPionProduction)
    (front back : ℝ)
    (hf : ppp.tabLorentz.head? = some front)
    (hb : ppp.tabLorentz.getLast? = some back) :
    (∀ (c : Candidate) (u : ℝ × ℝ) (us : List (ℝ × ℝ)),
      ((1 + c.redshift) * ext.lorentzFactor c.current < front ∨
        (1 + c.redshift) * ext.lorentzFactor c.current > back) →
      process ext ppp c (u :: us) = some c) ∧
    (∀ (id : ℤ) (gamma z : ℝ),
      (gamma * (1 + z) < front ∨ gamma * (1 + z) > back) →
      lossLength ext ppp id gamma z = some numericLimitsDoubleMax) := by
  constructor
  · intro c u us hγ
    rw [process, List.length_cons, processLoop]
    rw [processIteration, hf, hb]
    by_cases hn : isNucleus c.current.id
    · simp only [hn, not_true_eq_false, if_false, if_pos hγ, Option.some_bind]
    · simp [hn]
  · intro id gamma z hγ
    rw [lossLength, hf, hb]
    simp only [if_pos hγ]

/-- Witness for C3 at a concrete input: Lorentz factor 50 boosted by
redshift 3 overshoots the sample grid `[10, 100]`. -/
theorem out_of_range_no_interaction_witness :
    process extSample pppSample (⟨⟨nucleusId 1 1, 1⟩, 3, 1, 1, []⟩ : Candidate)
      [(1 / 2, 1 / 2)] = some ⟨⟨nucleusId 1 1, 1⟩, 3, 1, 1, []⟩ ∧
    lossLength extSample pppSample (nucleusId 1 1) 50 3 =
      some numericLimitsDoubleMax := by
  constructor
  · refine (out_of_range_no_interaction extSample pppSample 10 100 rfl rfl).1
      _ (1 / 2, 1 / 2) [] ?_
    simp only [extSample]
    norm_num
  · refine (out_of_range_no_interaction extSample pppSample 10 100 rfl rfl).2
      (nucleusId 1 1) 50 3 ?_
    norm_num

/-- C7: the continuous loss-length estimator never consults the
neutron-rate table — its result is invariant under replacing
`tabNeutronRate` — and for a pure-neutron target (Z = 0, N = A > 0) in
tabulated range the whole loss rate is the interpolated `tabProtonRate`
value times `nucleiModification(A, N)` (times the relative energy loss
and the cosmological scaling). -/
theorem lossLength_neutron_uses_proton_table (ext : Externals)
    (ppp : PhotoPionProduction) :
    (∀ (t : List ℝ) (id : ℤ) (gamma z : ℝ),
      lossLength ext { ppp with tabNeutronRate := t } id gamma z =
        lossLength ext ppp id gamma z) ∧
    (∀ (id : ℤ) (gamma z front back : ℝ),
      ppp.tabLorentz.head? = some front →
      ppp.tabLorentz.getLast? = some back →
      ¬(gamma * (1 + z) < front ∨ gamma * (1 + z) > back) →
      chargeNumber id = 0 → 0 < massNumber id →
      lossLength ext ppp id gamma z =
        fdiv 1 (ext.interpolate (gamma * (1 + z)) ppp.tabLorentz ppp.tabProtonRate *
          nucleiModification (massNumber id) (massNumber id) *
          (if massNumber id = 1 then 1 - 938 / 1232 else 1 / (massNumber id : ℝ)) *
          ((1 + z) ^ 3 * ext.photonFieldScaling ppp.photonField z))) := by
  constructor
  · intro t id gamma z
    rfl
  · intro id gamma z front back hf hb hγ hZ0 hA
    simp only [lossLength, hf, hb]
    rw [if_neg hγ, hZ0]
    simp only [sub_zero, lt_self_iff_false, if_false, if_pos hA, zero_add]

/-- C10: the stochastic integrator's divisions are unguarded.  When
every available channel's rate is nonzero the sampling succeeds and
`totalRate` is the sum of the available rates; a zero rate on an
available channel makes the sampled distance `-ln(u)/rate` undefined;
and when no channel carries a positive nucleon count the deferral branch
divides `limit` by the zero `totalRate`, which is undefined as well. -/
theorem process_division_preconditions (ext : Externals) (ppp : PhotoPionProduction) :
    (∀ (z gamma : ℝ) (A Z : ℤ) (u : ℝ × ℝ),
      (0 < Z → channelRate ext ppp z gamma ppp.tabProtonRate A Z ≠ 0) →
      (0 < A - Z → channelRate ext ppp z gamma ppp.tabNeutronRate A (A - Z) ≠ 0) →
      ∃ (D : ℝ) (ch : Option ℕ),
        sampleChannels ext ppp z gamma A Z u = some (D, ch,
          (if 0 < Z then channelRate ext ppp z gamma ppp.tabProtonRate A Z else 0) +
          (if 0 < A - Z then
            channelRate ext ppp z gamma ppp.tabNeutronRate A (A - Z) else 0))) ∧
    (∀ (z gamma : ℝ) (A Z : ℤ) (u : ℝ × ℝ), 0 < Z →
      channelRate ext ppp z gamma ppp.tabProtonRate A Z = 0 →
      sampleChannels ext ppp z gamma A Z u = none) ∧
    (∀ (c : Candidate) (step : ℝ) (u : ℝ × ℝ) (front back : ℝ),
      ppp.tabLorentz.head? = some front →
      ppp.tabLorentz.getLast? = some back →
      isNucleus c.current.id = true →
      ¬((1 + c.redshift) * ext.lorentzFactor c.current < front ∨
        (1 + c.redshift) * ext.lorentzFactor c.current > back) →
      chargeNumber c.current.id = 0 → massNumber c.current.id = 0 →
      step < numericLimitsDoubleMax →
      processIteration ext ppp c step u = none) := by
  refine ⟨?_, ?_, ?_⟩
  · intro z gamma A Z u hP hQ
    by_cases hZ : 0 < Z <;> by_cases hN : 0 < A - Z
    · by_cases hd : -Real.log u.2 / channelRate ext ppp z gamma ppp.tabNeutronRate A (A - Z) <
        -Real.log u.1 / channelRate ext ppp z gamma ppp.tabProtonRate A Z
      · exact ⟨-Real.log u.2 / channelRate ext ppp z gamma ppp.tabNeutronRate A (A - Z),
          some 0, by simp [sampleChannels, fdiv, hZ, hN, hP hZ, hQ hN, hd]⟩
      · exact ⟨-Real.log u.1 / channelRate ext ppp z gamma ppp.tabProtonRate A Z,
          some 1, by simp [sampleChannels, fdiv, hZ, hN, hP hZ, hQ hN, hd]⟩
    · exact ⟨-Real.log u.1 / channelRate ext ppp z gamma ppp.tabProtonRate A Z,
        some 1, by simp [sampleChannels, fdiv, hZ, hN, hP hZ]⟩
    · by_cases hd : -Real.log u.2 / channelRate ext ppp z gamma ppp.tabNeutronRate A (A - Z) <
        numericLimitsDoubleMax
      · exact ⟨-Real.log u.2 / channelRate ext ppp z gamma ppp.tabNeutronRate A (A - Z),
          some 0, by simp [sampleChannels, fdiv, hZ, hN, hQ hN, hd]⟩
      · exact ⟨numericLimitsDoubleMax, none,
          by simp [sampleChannels, fdiv, hZ, hN, hQ hN, hd]⟩
    · exact ⟨numericLimitsDoubleMax, none, by simp [sampleChannels, hZ, hN]⟩
  · intro z gamma A Z u hZ hP
    simp [sampleChannels, fdiv, hZ, hP]
  · intro c step u front back hf hb hn hγ hZ0 hA0 hstep
    rw [processIteration, hf, hb]
    simp only [hn, not_true_eq_false, if_false, if_neg hγ]
    rw [sampleChannels]
    rw [hZ0, hA0]
    norm_num [fdiv, if_pos hstep]

/-- The modification factor of a bare nucleon is 1. -/
theorem nucleiModification_one (X : ℤ) : nucleiModification 1 X = 1 := by
  simp [nucleiModification]

/-- C5: with a redshift-independent table, the lookup uses the boosted
Lorentz factor `gamma * (1 + z)`, and the table-derived per-nucleon rate
is multiplied by `(1+z)^2 * photonFieldScaling(field, z)` in the
stochastic step integrator (visible in the deferral cap for a bare
proton), but by `(1+z)^3 * photonFieldScaling(field, z)` in the
continuous loss-length estimator. -/
theorem redshift_scaling_powers (ext : Externals) (ppp : PhotoPionProduction)
    (front back : ℝ)
    (hdep : ppp.doRedshiftDependent = false)
    (hf : ppp.tabLorentz.head? = some front)
    (hb : ppp.tabLorentz.getLast? = some back) :
    (∀ (c : Candidate) (u : ℝ × ℝ) (us : List (ℝ × ℝ)),
      isNucleus c.current.id = true →
      massNumber c.current.id = 1 →
      chargeNumber c.current.id = 1 →
      ¬((1 + c.redshift) * ext.lorentzFactor c.current < front ∨
        (1 + c.redshift) * ext.lorentzFactor c.current > back) →
      ∀ rate : ℝ,
        rate = (1 + c.redshift) ^ 2 *
          ext.photonFieldScaling ppp.photonField c.redshift *
          ext.interpolate ((1 + c.redshift) * ext.lorentzFactor c.current)
            ppp.tabLorentz ppp.tabProtonRate →
        rate ≠ 0 →
        c.currentStep < -Real.log u.1 / rate →
        process ext ppp c (u :: us) = some (c.limitNextStep (ppp.limit / rate))) ∧
    (∀ (id : ℤ) (gamma z : ℝ),
      massNumber id = 1 → chargeNumber id = 1 →
      ¬(gamma * (1 + z) < front ∨ gamma * (1 + z) > back) →
      lossLength ext ppp id gamma z =
        fdiv 1 (ext.interpolate (gamma * (1 + z)) ppp.tabLorentz ppp.tabProtonRate *
          (1 - 938 / 1232) *
          ((1 + z) ^ 3 * ext.photonFieldScaling ppp.photonField z))) := by
  constructor
  · intro c u us hn hA hZ1 hγ rate hrate hr0 hstep
    have hcr : channelRate ext ppp c.redshift
        ((1 + c.redshift) * ext.lorentzFactor c.current) ppp.tabProtonRate
        (massNumber c.current.id) (chargeNumber c.current.id) = rate := by
      rw [hA, hZ1, hrate]
      simp only [channelRate, hdep, Bool.false_eq_true, not_false_eq_true, if_true,
        nucleiModification_one, mul_one]
    have hs : sampleChannels ext ppp c.redshift
        ((1 + c.redshift) * ext.lorentzFactor c.current)
        (massNumber c.current.id) (chargeNumber c.current.id) u =
        some (-Real.log u.1 / rate, some 1, rate) := by
      rw [sampleChannels]
      rw [hcr]
      rw [hA, hZ1]
      norm_num [fdiv, hr0]
    exact processLoop_defer ext ppp us.length c c.currentStep u us front back
      (-Real.log u.1 / rate) (some 1) rate hf hb hn hγ hs hr0 hstep
  · intro id gamma z hA hZ1 hγ
    simp only [lossLength, hf, hb]
    rw [if_neg hγ, hA, hZ1]
    norm_num [nucleiModification_one]

/-- Witness for C5 at a concrete input: the sample proton defers with
the `(1+z)^2`-scaled cap, and its loss length carries the
`(1+z)^3`-scaled rate. -/
theorem redshift_scaling_powers_witness :
    process extSample pppSample candProton0 [(1 / 2, 1 / 2)] =
      some (candProton0.limitNextStep (pppSample.limit /
        ((1 + candProton0.redshift) ^ 2 *
          extSample.photonFieldScaling pppSample.photonField candProton0.redshift *
          extSample.interpolate
            ((1 + candProton0.redshift) * extSample.lorentzFactor candProton0.current)
            pppSample.tabLorentz pppSample.tabProtonRate))) ∧
    lossLength extSample pppSample (nucleusId 1 1) 50 0 =
      fdiv 1 (extSample.interpolate (50 * (1 + 0)) pppSample.tabLorentz
        pppSample.tabProtonRate * (1 - 938 / 1232) *
        ((1 + 0) ^ 3 * extSample.photonFieldScaling pppSample.photonField 0)) := by
  have h := redshift_scaling_powers extSample pppSample 10 100 rfl rfl rfl
  have hr0 : (1 + candProton0.redshift) ^ 2 *
      extSample.photonFieldScaling pppSample.photonField candProton0.redshift *
      extSample.interpolate
        ((1 + candProton0.redshift) * extSample.lorentzFactor candProton0.current)
        pppSample.tabLorentz pppSample.tabProtonRate ≠ 0 := by
    simp only [extSample, candProton0, pppSample]
    norm_num
  have hγ : ¬((1 + candProton0.redshift) * extSample.lorentzFactor candProton0.current <
      10 ∨ (1 + candProton0.redshift) * extSample.lorentzFactor candProton0.current >
      100) := by
    simp only [extSample, candProton0]
    norm_num
  have hstep : candProton0.currentStep < -Real.log (1 / 2, 1 / 2).1 /
      ((1 + candProton0.redshift) ^ 2 *
        extSample.photonFieldScaling pppSample.photonField candProton0.redshift *
        extSample.interpolate
          ((1 + candProton0.redshift) * extSample.lorentzFactor candProton0.current)
          pppSample.tabLorentz pppSample.tabProtonRate) := by
    have hl := Real.log_neg (by norm_num : (0 : ℝ) < 1 / 2)
      (by norm_num : (1 : ℝ) / 2 < 1)
    simp only [extSample, candProton0, pppSample]
    norm_num
    linarith
  refine ⟨?_, ?_⟩
  · exact h.1 candProton0 (1 / 2, 1 / 2) [] (by decide) (by decide) (by decide)
      hγ _ rfl hr0 hstep
  · exact h.2 (nucleusId 1 1) 50 0 (by decide) (by decide) (by norm_num)

end Crpropa
